import Mathlib

/-!
Verification development for the `samsungproject` repository
(`app/src/main/cpp/custom_monado_runtime.cpp` and the OpenXR overlay demo
translation unit that accompanies it).

Embedding conventions:
* `GLfloat` values are modelled as `ℚ`.  Every arithmetic operation the
  verified claims touch (building translate/scale matrices and multiplying
  them) only ever adds products in which at most one factor is non-zero, so
  the float computation is exact and the rational model is faithful.
* 4×4 matrices are stored exactly as in the C source: a flat array indexed
  by `i * 4 + j` in column-major order, modelled as a total function
  `Nat → ℚ` (indices ≥ 16 are irrelevant).
* Opaque handles (`XrInstance`, `XrSession`, GL object names, EGL handles)
  are modelled as `Nat`, with `0` standing for the null handle /
  `EGL_NO_DISPLAY` / GL name 0.
* `std::map` is modelled as an association list with unique keys maintained
  by the insert/adjust operations below.
* External calls (EGL, GL, the OpenXR loader) are modelled either as
  environment inputs (success flags, runtime-provided counts) or as emitted
  events in a call trace.
-/

namespace MonadoRuntime

/-! ### Matrix utility (from `matrix_identity` / `matrix_translate` /
`matrix_scale` / `matrix_multiply` in the source) -/

/-- Flat 4×4 float array, column-major, as in the C code (`float m[16]`). -/
abbrev Mat := Nat → ℚ

/-- Embeds `matrix_identity`: writes 1 at indices 0, 5, 10, 15 and 0
elsewhere. -/
def matrix_identity : Mat := fun c =>
  if c = 0 ∨ c = 5 ∨ c = 10 ∨ c = 15 then 1 else 0

/-- Embeds `matrix_translate`: identity, then `m[12]=x; m[13]=y; m[14]=z`. -/
def matrix_translate (x y z : ℚ) : Mat := fun c =>
  if c = 12 then x else if c = 13 then y else if c = 14 then z
  else matrix_identity c

/-- Embeds `matrix_scale`: identity, then `m[0]=sx; m[5]=sy; m[10]=sz`. -/
def matrix_scale (sx sy sz : ℚ) : Mat := fun c =>
  if c = 0 then sx else if c = 5 then sy else if c = 10 then sz
  else matrix_identity c

/-- Embeds `matrix_multiply`: for `c = i*4 + j` (with `i = c/4`, `j = c%4`)
the source computes `r[i*4+j] = Σ_k a[k*4+j] * b[i*4+k]`. -/
def matrix_multiply (a b : Mat) : Mat := fun c =>
  ∑ k in Finset.range 4, a (k * 4 + c % 4) * b (c / 4 * 4 + k)

/-- Reads a flat column-major array as a mathematical matrix: entry
(row `i`, column `j`) lives at flat index `j*4 + i`. -/
def matToSpec (m : Mat) : Matrix (Fin 4) (Fin 4) ℚ :=
  Matrix.of fun i j => m (j.val * 4 + i.val)

/-- Reference (spec-side) definition of the homogeneous translation matrix
`translate(x,y,z)`: identity with last column `(x, y, z, 1)`.  Written from
the spec's phrase "translate(x,y,0)", for comparison with the source
definition. -/
def specTranslate (x y z : ℚ) : Matrix (Fin 4) (Fin 4) ℚ :=
  Matrix.of fun i j =>
    if i.val = j.val then 1
    else if j.val = 3 then
      (if i.val = 0 then x else if i.val = 1 then y
       else if i.val = 2 then z else 0)
    else 0

/-- Reference (spec-side) definition of the homogeneous scale matrix
`scale(sx,sy,sz)`: diagonal `(sx, sy, sz, 1)`.  Written from the spec's
phrase "scale(s,s,1)", for comparison with the source definition. -/
def specScale (sx sy sz : ℚ) : Matrix (Fin 4) (Fin 4) ℚ :=
  Matrix.of fun i j =>
    if i.val = j.val then
      (if i.val = 0 then sx else if i.val = 1 then sy
       else if i.val = 2 then sz else 1)
    else 0

/-- The source's flat column-major `matrix_multiply` of a translate by a
scale agrees with the mathematical matrix product of the reference
translation and scale matrices. -/
theorem matrix_multiply_translate_scale (x y s : ℚ) :
    matToSpec (matrix_multiply (matrix_translate x y 0) (matrix_scale s s 1))
      = specTranslate x y 0 * specScale s s 1 := by
  ext i j
  simp only [matToSpec, matrix_multiply, Matrix.of_apply, Matrix.mul_apply,
    Fin.sum_univ_four, Finset.sum_range_succ, Finset.sum_range_zero]
  fin_cases i <;> fin_cases j <;>
    norm_num [matrix_translate, matrix_scale, matrix_identity,
      specTranslate, specScale,
      show ((0 : Fin 4)).val = 0 from rfl, show ((1 : Fin 4)).val = 1 from rfl,
      show ((2 : Fin 4)).val = 2 from rfl, show ((3 : Fin 4)).val = 3 from rfl]

/-! ### Overlay layer data model (from `struct OverlayLayer`) -/

/-- Embeds `struct OverlayLayer { int id; XrSession session; float x, y,
scale; float color[3]; }`.  `session` is the opaque handle as `Nat`
(0 = null). -/
structure OverlayLayer where
  id : Int
  session : Nat
  x : ℚ
  y : ℚ
  scale : ℚ
  r : ℚ
  g : ℚ
  b : ℚ
deriving DecidableEq

/-- The default constructor of `OverlayLayer`:
`id(0), session(nullptr), x(0), y(0), scale(1.0f), color{1,1,1}`. -/
def defaultLayer : OverlayLayer :=
  { id := 0, session := 0, x := 0, y := 0, scale := 1, r := 1, g := 1, b := 1 }

/-! `std::map<int, OverlayLayer>` modelled as an association list.  Keys are
unique whenever the list is built with `mapInsert`; `mapFind` mirrors
`m.find(k)` and `mapAdjust` mirrors mutation through the found iterator. -/

/-- Lookup of a key, mirroring `m_overlayLayers.find(layerId)`. -/
def mapFind : List (Int × OverlayLayer) → Int → Option OverlayLayer
  | [], _ => none
  | (k, v) :: rest, key => if key = k then some v else mapFind rest key

/-- In-place mutation of the entry at `key` (mirrors writing through the
iterator returned by `find`); entries at other keys are untouched. -/
def mapAdjust (f : OverlayLayer → OverlayLayer) (key : Int) :
    List (Int × OverlayLayer) → List (Int × OverlayLayer)
  | [] => []
  | (k, v) :: rest =>
    if key = k then (k, f v) :: mapAdjust f key rest
    else (k, v) :: mapAdjust f key rest

/-- Insert-or-assign, mirroring `m_overlayLayers[layerId] = layer`. -/
def mapInsert (key : Int) (v : OverlayLayer) :
    List (Int × OverlayLayer) → List (Int × OverlayLayer)
  | [] => [(key, v)]
  | (k, w) :: rest =>
    if key = k then (k, v) :: rest else (k, w) :: mapInsert key v rest

/-! ### CustomMonadoRuntime state

Fields mirror the private members of `class CustomMonadoRuntime`; the two
function-local `static` counters of `createInstance` / `createSession` are
carried in the state as well (they live for the whole process).  EGL/GL
handles are `Nat` with 0 for `EGL_NO_DISPLAY` / `EGL_NO_CONTEXT` /
`EGL_NO_SURFACE` / GL name 0.  `m_sessionWindows` keeps only its key set:
every stored window is non-null and never read back. -/
structure CMRState where
  initialized : Bool
  frameCount : Int
  eglDisplay : Nat
  eglContext : Nat
  eglSurface : Nat
  shaderProgram : Nat
  quadVAO : Nat
  quadVBO : Nat
  sessions : List Nat
  layers : List (Int × OverlayLayer)
  nextInstance : Nat
  nextSession : Nat
deriving DecidableEq

/-- The state at process start: `m_initialized = false`, `m_frameCount = 0`,
no EGL objects, no sessions, no layers, instance counter `0x12345678`,
session counter `0x87654321`. -/
def initialState : CMRState :=
  { initialized := false, frameCount := 0, eglDisplay := 0, eglContext := 0,
    eglSurface := 0, shaderProgram := 0, quadVAO := 0, quadVBO := 0,
    sessions := [], layers := [], nextInstance := 0x12345678,
    nextSession := 0x87654321 }

/-! ### CustomMonadoRuntime operations -/

/-- Embeds `CustomMonadoRuntime::initialize`.  The window argument is
modelled by its null-check (`window : Bool`); success of the external
`initializeEGL` and `initializeGraphics` sequences is an environment input
(`eglOk`, `gfxOk`).  On full success EGL handles and GL objects are set to
fresh non-zero names and `m_initialized` becomes true. -/
def initRuntime (st : CMRState) (window eglOk gfxOk : Bool) :
    CMRState × Bool :=
  if !window then (st, false)
  else if !eglOk then (st, false)
  else
    let st1 := { st with eglDisplay := 1, eglContext := 1, eglSurface := 1 }
    if !gfxOk then (st1, false)
    else ({ st1 with shaderProgram := 1, quadVAO := 1, quadVBO := 1,
                     initialized := true }, true)

/-- Embeds `CustomMonadoRuntime::updateOverlayPosition`. -/
def updateOverlayPosition (st : CMRState) (layerId : Int) (x y : ℚ) :
    CMRState × Bool :=
  match mapFind st.layers layerId with
  | none => (st, false)
  | some _ =>
    let f := fun l : OverlayLayer => { l with x := x, y := y }
    ({ st with layers := mapAdjust f layerId st.layers }, true)

/-- Embeds `CustomMonadoRuntime::updateOverlayScale`. -/
def updateOverlayScale (st : CMRState) (layerId : Int) (scale : ℚ) :
    CMRState × Bool :=
  match mapFind st.layers layerId with
  | none => (st, false)
  | some _ =>
    let f := fun l : OverlayLayer => { l with scale := scale }
    ({ st with layers := mapAdjust f layerId st.layers }, true)

/-- Embeds `CustomMonadoRuntime::updateOverlayColor`. -/
def updateOverlayColor (st : CMRState) (layerId : Int) (r g b : ℚ) :
    CMRState × Bool :=
  match mapFind st.layers layerId with
  | none => (st, false)
  | some _ =>
    let f := fun l : OverlayLayer => { l with r := r, g := g, b := b }
    ({ st with layers := mapAdjust f layerId st.layers }, true)

/-- Embeds `CustomMonadoRuntime::createInstance`: null handle when the
runtime is not initialized, otherwise the next value of the static
instance counter. -/
def createInstance (st : CMRState) : CMRState × Nat :=
  if !st.initialized then (st, 0)
  else ({ st with nextInstance := st.nextInstance + 1 }, st.nextInstance)

/-- Embeds `CustomMonadoRuntime::createSession`: null handle when the
window is null (note: `m_initialized` is NOT checked by the source),
otherwise the next value of the static session counter, registered in
`m_sessionWindows`. -/
def createSession (st : CMRState) (window : Bool) : CMRState × Nat :=
  if !window then (st, 0)
  else ({ st with sessions := st.sessions ++ [st.nextSession],
                  nextSession := st.nextSession + 1 },
        st.nextSession)

/-- Embeds `CustomMonadoRuntime::beginFrame`: false for an unrecognized
session, otherwise `m_frameCount++` (the GL clear is an external effect)
and true. -/
def beginFrame (st : CMRState) (session : Nat) : CMRState × Bool :=
  if session ∉ st.sessions then (st, false)
  else ({ st with frameCount := st.frameCount + 1 }, true)

/-- Embeds `CustomMonadoRuntime::createOverlay`.  Fails on an existing id;
ids 0, 1, 2 get the hard-coded position/color and uniform scale `0.25`;
any other id returns `true` without inserting a layer (the `default:`
branch of the switch). -/
def createOverlay (st : CMRState) (session : Nat) (layerId : Int) :
    CMRState × Bool :=
  match mapFind st.layers layerId with
  | some _ => (st, false)
  | none =>
    let layer :=
      { defaultLayer with id := layerId, session := session, scale := 1/4 }
    if layerId = 0 then
      let layer := { layer with x := -(1/2), y := 1/2, r := 0, g := 0, b := 1 }
      ({ st with layers := mapInsert layerId layer st.layers }, true)
    else if layerId = 1 then
      let layer := { layer with x := 0, y := -(1/4), r := 1, g := 0, b := 1 }
      ({ st with layers := mapInsert layerId layer st.layers }, true)
    else if layerId = 2 then
      let layer := { layer with x := 1/2, y := 1/4, r := 0, g := 1, b := 0 }
      ({ st with layers := mapInsert layerId layer st.layers }, true)
    else (st, true)

/-- Embeds `CustomMonadoRuntime::getFrameCount`. -/
def getFrameCount (st : CMRState) : Int := st.frameCount

/-! ### Rendering trace of the frame path -/

/-- GL calls issued by `renderOverlays` / `renderOverlayLayer`.  A `draw`
event carries the layer id, the model matrix uploaded through
`glUniformMatrix4fv` and the color uploaded through `glUniform3fv` for the
`glDrawElements` call. -/
inductive RenderEvent
| useProgram (program : Nat)
| bindVAO (vao : Nat)
| draw (id : Int) (model : Mat) (color : ℚ × ℚ × ℚ)

/-- Embeds the model-matrix computation of
`CustomMonadoRuntime::renderOverlayLayer`:
`matrix_scale(scale, scale, 1); matrix_translate(x, y, 0);
matrix_multiply(trans, scale, model)`. -/
def layerModelMatrix (layer : OverlayLayer) : Mat :=
  matrix_multiply (matrix_translate layer.x layer.y 0)
    (matrix_scale layer.scale layer.scale 1)

/-- Embeds `CustomMonadoRuntime::renderOverlays`: bind program and VAO,
then one `renderOverlayLayer` per entry of `m_overlayLayers`, then unbind. -/
def renderOverlays (st : CMRState) : List RenderEvent :=
  [RenderEvent.useProgram st.shaderProgram, RenderEvent.bindVAO st.quadVAO] ++
  st.layers.map (fun p =>
    RenderEvent.draw p.1 (layerModelMatrix p.2) (p.2.r, p.2.g, p.2.b)) ++
  [RenderEvent.bindVAO 0]

/-- Embeds `CustomMonadoRuntime::endFrame`: false for an unrecognized
session; otherwise `renderOverlays()` runs, then `eglSwapBuffers` (external,
its success `swapOk` is an environment input) decides the return value. -/
def endFrame (st : CMRState) (session : Nat) (swapOk : Bool) :
    CMRState × Bool × List RenderEvent :=
  if session ∉ st.sessions then (st, false, [])
  else if !swapOk then (st, false, renderOverlays st)
  else (st, true, renderOverlays st)

/-! ### Cleanup -/

/-- EGL/GL teardown calls issued by `CustomMonadoRuntime::cleanup`. -/
inductive GlEvent
| deleteProgram (program : Nat)
| deleteVAO (vao : Nat)
| deleteVBO (vbo : Nat)
| makeCurrentNull
| destroyContext (ctx : Nat)
| destroySurface (surf : Nat)
| eglTerminate
deriving DecidableEq

/-- Embeds `CustomMonadoRuntime::cleanup`: when `m_initialized` it clears
`m_overlayLayers`, issues the guarded GL/EGL release calls, and resets
`m_initialized`; otherwise it does nothing.  Note the source neither
touches `m_sessionWindows` / `m_frameCount` nor resets the handle members
themselves. -/
def cleanup (st : CMRState) : CMRState × List GlEvent :=
  if st.initialized then
    ({ st with layers := [], initialized := false },
     (if st.shaderProgram ≠ 0 then [GlEvent.deleteProgram st.shaderProgram]
      else []) ++
     (if st.quadVAO ≠ 0 then [GlEvent.deleteVAO st.quadVAO] else []) ++
     (if st.quadVBO ≠ 0 then [GlEvent.deleteVBO st.quadVBO] else []) ++
     (if st.eglDisplay ≠ 0 then
        [GlEvent.makeCurrentNull] ++
        (if st.eglContext ≠ 0 then [GlEvent.destroyContext st.eglContext]
         else []) ++
        (if st.eglSurface ≠ 0 then [GlEvent.destroySurface st.eglSurface]
         else []) ++
        [GlEvent.eglTerminate]
      else []))
  else (st, [])

/-! ### Mutator sequences (for the last-written-value property) -/

/-- One call to one of the three overlay mutators. -/
inductive Op
| pos (id : Int) (x y : ℚ)
| scl (id : Int) (s : ℚ)
| col (id : Int) (r g b : ℚ)
deriving DecidableEq

/-- State effect of one mutator call (the returned Bool is discarded, as in
the JNI bridge, whose `updateOverlay*` wrappers return `void`). -/
def applyOp (st : CMRState) (op : Op) : CMRState :=
  match op with
  | Op.pos i x y => (updateOverlayPosition st i x y).1
  | Op.scl i s => (updateOverlayScale st i s).1
  | Op.col i r g b => (updateOverlayColor st i r g b).1

/-- State effect of a sequence of mutator calls. -/
def applyOps (st : CMRState) (ops : List Op) : CMRState :=
  ops.foldl applyOp st

/-- Effect of one mutator call on the layer with the given id, as a pure
field update. -/
def opOnLayer (id : Int) (op : Op) (l : OverlayLayer) : OverlayLayer :=
  match op with
  | Op.pos i x y => if i = id then { l with x := x, y := y } else l
  | Op.scl i s => if i = id then { l with scale := s } else l
  | Op.col i r g b => if i = id then { l with r := r, g := g, b := b } else l

/-- Last-written position for layer `id` over a call sequence, starting
from the default `d`. -/
def lastPos (id : Int) (ops : List Op) (d : ℚ × ℚ) : ℚ × ℚ :=
  ops.foldl (fun p op =>
    match op with
    | Op.pos i x y => if i = id then (x, y) else p
    | _ => p) d

/-- Last-written scale for layer `id` over a call sequence, starting from
the default `d`. -/
def lastScale (id : Int) (ops : List Op) (d : ℚ) : ℚ :=
  ops.foldl (fun s op =>
    match op with
    | Op.scl i v => if i = id then v else s
    | _ => s) d

/-! ### The OpenXR overlay demo translation unit

`renderFrame`, `initEGL`, `initOpenGL`, `initOpenXR` and `handleAppCmd`
operate on file-scope globals; those globals are gathered into `DemoState`.
Runtime-provided values (handles returned through out-parameters, counts,
call success) are environment inputs. -/

/-- Calls issued to the OpenXR runtime / GL during one `renderFrame`.
`draw` stands for one `glDrawElements` invocation. -/
inductive XrCall
| waitFrame
| beginFrame
| acquireImage
| waitImage
| locateViews
| draw
| releaseImage
| endFrame (layerCount : Nat) (displayTime : Nat)
deriving DecidableEq

/-- The three `glDrawElements` calls (background quad, red overlay quad,
green overlay quad) of the per-eye body, repeated for each located view. -/
def eyeDraws (viewCountOutput : Nat) : List XrCall :=
  (List.range viewCountOutput).flatMap fun _ => [XrCall.draw, XrCall.draw, XrCall.draw]

/-- Embeds `renderFrame()`: returns the ordered list of runtime calls
issued during one invocation.  `sessionRunning` is the global flag checked
on entry; `shouldRender` and `displayTime` come from the `xrWaitFrame`
frame state; `viewCountOutput` from `xrLocateViews`.  The single projection
layer is pushed onto `layers` only in the `shouldRender` branch, so
`xrEndFrame` is submitted with layer count 1 or 0. -/
def renderFrame (sessionRunning shouldRender : Bool)
    (displayTime viewCountOutput : Nat) : List XrCall :=
  if !sessionRunning then []
  else
    [XrCall.waitFrame, XrCall.beginFrame] ++
    (if shouldRender then
      [XrCall.acquireImage, XrCall.waitImage, XrCall.locateViews] ++
      eyeDraws viewCountOutput ++ [XrCall.releaseImage]
     else []) ++
    [XrCall.endFrame (if shouldRender then 1 else 0) displayTime]

/-- Per-tick environment for one `renderFrame` invocation. -/
structure TickEnv where
  sessionRunning : Bool
  shouldRender : Bool
  displayTime : Nat
  viewCountOutput : Nat
deriving DecidableEq

/-- Concatenated call trace of a sequence of `renderFrame` ticks. -/
def ticksTrace (ticks : List TickEnv) : List XrCall :=
  ticks.flatMap fun t =>
    renderFrame t.sessionRunning t.shouldRender t.displayTime t.viewCountOutput

/-- Recognizes the `xrBeginFrame` call. -/
def isBeginCall : XrCall → Bool
  | XrCall.beginFrame => true
  | _ => false

/-- Recognizes the `xrEndFrame` call. -/
def isEndCall : XrCall → Bool
  | XrCall.endFrame _ _ => true
  | _ => false

/-! ### Demo-app globals and the init path -/

/-- File-scope globals of the demo translation unit that the init path
touches.  `framebuffersAllocated` / `renderbuffersAllocated` count GL
objects generated by `glGenFramebuffers` / `glGenRenderbuffers` and not
deleted; `nextXr` and `nextGl` model the runtime's and GL's fresh-handle
allocation. -/
structure DemoState where
  eglDisplay : Nat
  eglContext : Nat
  eglSurface : Nat
  instanceH : Nat
  systemId : Nat
  sessionH : Nat
  appSpace : Nat
  swapchainH : Nat
  viewCount : Nat
  imageCount : Nat
  framebuffer : Nat
  depthbuffer : Nat
  framebuffersAllocated : Nat
  renderbuffersAllocated : Nat
  shaderProgram : Nat
  overlayShaderProgram : Nat
  vao : Nat
  vbo : Nat
  nextXr : Nat
  nextGl : Nat
deriving DecidableEq

/-- Demo globals at process start (all handles null / counters at their
first fresh value). -/
def demoStart : DemoState :=
  { eglDisplay := 0, eglContext := 0, eglSurface := 0, instanceH := 0,
    systemId := 0, sessionH := 0, appSpace := 0, swapchainH := 0,
    viewCount := 0, imageCount := 0, framebuffer := 0, depthbuffer := 0,
    framebuffersAllocated := 0, renderbuffersAllocated := 0,
    shaderProgram := 0, overlayShaderProgram := 0, vao := 0, vbo := 0,
    nextXr := 1, nextGl := 1 }

/-- Environment inputs of the demo init path: the EGL display/context/
surface handles handed back by EGL, the success of each checked OpenXR
call in `initOpenXR`, and the counts the runtime reports. -/
structure DemoEnv where
  eglDisplayHandle : Nat
  eglContextHandle : Nat
  eglSurfaceHandle : Nat
  createInstanceOk : Bool
  getSystemOk : Bool
  createSessionOk : Bool
  createSpaceOk : Bool
  createSwapchainOk : Bool
  viewCountIn : Nat
  imageCountIn : Nat
deriving DecidableEq

/-- Embeds `initEGL`: stores the display, context and surface handles EGL
returns.  The source checks no call for failure and returns `true`
unconditionally. -/
def initEGL (env : DemoEnv) (st : DemoState) : DemoState × Bool :=
  ({ st with eglDisplay := env.eglDisplayHandle,
             eglContext := env.eglContextHandle,
             eglSurface := env.eglSurfaceHandle }, true)

/-- Embeds `initOpenGL`: links the two shader programs and generates the
VAO/VBO (fresh GL names); returns `true` unconditionally. -/
def initOpenGL (st : DemoState) : DemoState × Bool :=
  let st1 := { st with shaderProgram := st.nextGl, nextGl := st.nextGl + 1 }
  let st2 :=
    { st1 with overlayShaderProgram := st1.nextGl, nextGl := st1.nextGl + 1 }
  let st3 := { st2 with vao := st2.nextGl, nextGl := st2.nextGl + 1 }
  let st4 := { st3 with vbo := st3.nextGl, nextGl := st3.nextGl + 1 }
  (st4, true)

/-- Embeds `initOpenXR`: creates instance, system, session, reference
space and the swapchain in order, aborting with `false` at the first
failed call; on success it enumerates the swapchain images and generates
one framebuffer and one renderbuffer.  Each created handle is a fresh
runtime handle; each `glGen*` call yields a fresh GL name and increments
the corresponding live-object count (nothing is deleted here). -/
def initOpenXR (env : DemoEnv) (st : DemoState) : DemoState × Bool :=
  if !env.createInstanceOk then (st, false)
  else
    let st1 := { st with instanceH := st.nextXr, nextXr := st.nextXr + 1 }
    if !env.getSystemOk then (st1, false)
    else
      let st2 := { st1 with systemId := st1.nextXr, nextXr := st1.nextXr + 1 }
      let st3 := { st2 with viewCount := env.viewCountIn }
      if !env.createSessionOk then (st3, false)
      else
        let st4 :=
          { st3 with sessionH := st3.nextXr, nextXr := st3.nextXr + 1 }
        if !env.createSpaceOk then (st4, false)
        else
          let st5 :=
            { st4 with appSpace := st4.nextXr, nextXr := st4.nextXr + 1 }
          if !env.createSwapchainOk then (st5, false)
          else
            let st6 :=
              { st5 with swapchainH := st5.nextXr, nextXr := st5.nextXr + 1 }
            let st7 := { st6 with imageCount := env.imageCountIn }
            let fbs := st7.framebuffersAllocated + 1
            let st8 :=
              { st7 with framebuffer := st7.nextGl, nextGl := st7.nextGl + 1, framebuffersAllocated := fbs }
            let rbs := st8.renderbuffersAllocated + 1
            let st9 :=
              { st8 with depthbuffer := st8.nextGl, nextGl := st8.nextGl + 1, renderbuffersAllocated := rbs }
            (st9, true)

/-- App commands delivered to `handleAppCmd`. -/
inductive AppCmd
| initWindow
| other
deriving DecidableEq

/-- Embeds `handleAppCmd`: on `APP_CMD_INIT_WINDOW`, when a window exists
and `eglDisplay == EGL_NO_DISPLAY`, runs `initEGL && initOpenGL &&
initOpenXR` (the first two always return true, so the short-circuit always
reaches `initOpenXR`); otherwise does nothing. -/
def handleAppCmd (env : DemoEnv) (windowPresent : Bool) (cmd : AppCmd)
    (st : DemoState) : DemoState :=
  match cmd with
  | AppCmd.initWindow =>
    if windowPresent && st.eglDisplay = 0 then
      let st1 := (initEGL env st).1
      let st2 := (initOpenGL st1).1
      (initOpenXR env st2).1
    else st
  | AppCmd.other => st

/-! ### Association-list map lemmas -/

theorem mapFind_mapAdjust_self (f : OverlayLayer → OverlayLayer) (k : Int) :
    ∀ l, mapFind (mapAdjust f k l) k = (mapFind l k).map f := by
  intro l
  induction l with
  | nil => rfl
  | cons hd tl ih =>
    obtain ⟨k', v⟩ := hd
    by_cases h : k = k'
    · simp [mapAdjust, mapFind, h]
    · simp [mapAdjust, mapFind, h, ih]

theorem mapFind_mapAdjust_ne (f : OverlayLayer → OverlayLayer) (k j : Int)
    (hne : j ≠ k) : ∀ l, mapFind (mapAdjust f k l) j = mapFind l j := by
  intro l
  induction l with
  | nil => rfl
  | cons hd tl ih =>
    obtain ⟨k', v⟩ := hd
    by_cases h : k = k'
    · subst h
      simp [mapAdjust, mapFind, hne, ih]
    · by_cases h2 : j = k'
      · simp [mapAdjust, mapFind, h, h2]
      · simp [mapAdjust, mapFind, h, h2, ih]

theorem mapFind_mapInsert_self (k : Int) (v : OverlayLayer) :
    ∀ l, mapFind (mapInsert k v l) k = some v := by
  intro l
  induction l with
  | nil => simp [mapInsert, mapFind]
  | cons hd tl ih =>
    obtain ⟨k', w⟩ := hd
    by_cases h : k = k'
    · simp [mapInsert, mapFind, h]
    · simp [mapInsert, mapFind, h, ih]

theorem mapFind_mapInsert_ne (k j : Int) (v : OverlayLayer) (hne : j ≠ k) :
    ∀ l, mapFind (mapInsert k v l) j = mapFind l j := by
  intro l
  induction l with
  | nil => simp [mapInsert, mapFind, hne]
  | cons hd tl ih =>
    obtain ⟨k', w⟩ := hd
    by_cases h : k = k'
    · subst h
      simp [mapInsert, mapFind, hne]
    · by_cases h2 : j = k'
      · simp [mapInsert, mapFind, h, h2]
      · simp [mapInsert, mapFind, h, h2, ih]

theorem mem_of_mapFind_eq_some {l : List (Int × OverlayLayer)} {k : Int}
    {v : OverlayLayer} (h : mapFind l k = some v) : (k, v) ∈ l := by
  induction l with
  | nil => simp [mapFind] at h
  | cons hd tl ih =>
    obtain ⟨k', w⟩ := hd
    by_cases hk : k = k'
    · subst hk
      simp [mapFind] at h
      simp [h]
    · simp [mapFind, hk] at h
      exact List.mem_cons_of_mem _ (ih h)

/-! ### Claim C2 -/

/-- C2: each of `updateOverlayPosition`, `updateOverlayScale` and
`updateOverlayColor` applied to a layer id with no existing layer returns
`false` and leaves the whole runtime state (in particular every existing
layer) unchanged. -/
theorem c2_update_unknown_id_noop (st : CMRState) (id : Int)
    (x y sc r g b : ℚ) (h : mapFind st.layers id = none) :
    updateOverlayPosition st id x y = (st, false) ∧
    updateOverlayScale st id sc = (st, false) ∧
    updateOverlayColor st id r g b = (st, false) := by
  refine ⟨?_, ?_, ?_⟩ <;>
    simp [updateOverlayPosition, updateOverlayScale, updateOverlayColor, h]

/-- Sample state: initialized runtime, one session `0x87654321`, one
overlay layer with id 0; used to instantiate theorems with hypotheses. -/
def sampleLayer : OverlayLayer :=
  { id := 0, session := 2271560481, x := 3, y := 5, scale := 2,
    r := 0, g := 0, b := 1 }

/-- Sample runtime state holding `sampleLayer` under id 0. -/
def sampleState : CMRState :=
  { initialized := true, frameCount := 7, eglDisplay := 1, eglContext := 1,
    eglSurface := 1, shaderProgram := 1, quadVAO := 1, quadVBO := 1,
    sessions := [2271560481], layers := [(0, sampleLayer)],
    nextInstance := 305419897, nextSession := 2271560482 }

/-- C2 witness: the unknown-id mutators at id 99 (as in the spec's
`updateOverlayScale(99, 0.5)` scenario) on a state with one existing
layer. -/
theorem c2_witness :
    mapFind sampleState.layers 99 = none ∧
    (updateOverlayPosition sampleState 99 1 2 = (sampleState, false) ∧
     updateOverlayScale sampleState 99 (1/2) = (sampleState, false) ∧
     updateOverlayColor sampleState 99 1 0 0 = (sampleState, false)) :=
  ⟨by simp [sampleState, mapFind],
   c2_update_unknown_id_noop sampleState 99 1 2 (1/2) 1 0 0
     (by simp [sampleState, mapFind])⟩

/-! ### Claim C5 -/

/-- C5: `createOverlay` with an id that already identifies an existing
layer returns `false` and leaves the state — hence the existing layer's
pose, scale and color — unchanged. -/
theorem c5_create_existing_id_fails (st : CMRState) (s : Nat) (id : Int)
    (l : OverlayLayer) (h : mapFind st.layers id = some l) :
    createOverlay st s id = (st, false) := by
  simp [createOverlay, h]

/-- C5 witness: creating id 0 again on the sample state fails and changes
nothing. -/
theorem c5_witness :
    mapFind sampleState.layers 0 = some sampleLayer ∧
    createOverlay sampleState 2271560481 0 = (sampleState, false) :=
  ⟨by simp [sampleState, mapFind],
   c5_create_existing_id_fails sampleState 2271560481 0 sampleLayer
     (by simp [sampleState, mapFind])⟩

/-! ### Claim C9 -/

/-- C9: `createOverlay` with an id outside `{0, 1, 2}` (and, as in every
reachable state, no existing layer under that id) returns `true` without
creating a layer — the state is unchanged — and every subsequent mutator
on that id returns `false`. -/
theorem c9_create_out_of_range (st : CMRState) (s : Nat) (id : Int)
    (x y sc r g b : ℚ) (h : mapFind st.layers id = none)
    (h0 : id ≠ 0) (h1 : id ≠ 1) (h2 : id ≠ 2) :
    createOverlay st s id = (st, true) ∧
    (updateOverlayPosition (createOverlay st s id).1 id x y).2 = false ∧
    (updateOverlayScale (createOverlay st s id).1 id sc).2 = false ∧
    (updateOverlayColor (createOverlay st s id).1 id r g b).2 = false := by
  have hc : createOverlay st s id = (st, true) := by
    simp [createOverlay, h, h0, h1, h2]
  refine ⟨hc, ?_, ?_, ?_⟩ <;>
    simp [hc, updateOverlayPosition, updateOverlayScale, updateOverlayColor, h]

/-- C9 witness: creating id 99 on the sample state. -/
theorem c9_witness :
    mapFind sampleState.layers 99 = none ∧
    (createOverlay sampleState 2271560481 99 = (sampleState, true) ∧
     (updateOverlayPosition (createOverlay sampleState 2271560481 99).1
        99 1 2).2 = false ∧
     (updateOverlayScale (createOverlay sampleState 2271560481 99).1
        99 3).2 = false ∧
     (updateOverlayColor (createOverlay sampleState 2271560481 99).1
        99 1 0 0).2 = false) :=
  ⟨by simp [sampleState, mapFind],
   c9_create_out_of_range sampleState 2271560481 99 1 2 3 1 0 0
     (by simp [sampleState, mapFind])
     (by decide) (by decide) (by decide)⟩

/-! ### Claim C6 -/

/-- The layer `createOverlay` builds for id 0 (blue). -/
def layer0 (s : Nat) : OverlayLayer :=
  { id := 0, session := s, x := -(1/2), y := 1/2, scale := 1/4,
    r := 0, g := 0, b := 1 }

/-- The layer `createOverlay` builds for id 1 (magenta). -/
def layer1 (s : Nat) : OverlayLayer :=
  { id := 1, session := s, x := 0, y := -(1/4), scale := 1/4,
    r := 1, g := 0, b := 1 }

/-- The layer `createOverlay` builds for id 2 (green). -/
def layer2 (s : Nat) : OverlayLayer :=
  { id := 2, session := s, x := 1/2, y := 1/4, scale := 1/4,
    r := 0, g := 1, b := 0 }

/-- C6: creating layers 0, 1 and 2 (absent beforehand) initializes them
with default positions `(-0.5, 0.5)`, `(0, -0.25)`, `(0.5, 0.25)` and
colors blue `(0,0,1)`, magenta `(1,0,1)`, green `(0,1,0)` (each at the
uniform default scale `0.25`). -/
theorem c6_default_layers (st : CMRState) (s : Nat)
    (h0 : mapFind st.layers 0 = none) (h1 : mapFind st.layers 1 = none)
    (h2 : mapFind st.layers 2 = none) :
    mapFind (createOverlay (createOverlay (createOverlay st s 0).1 s 1).1
        s 2).1.layers 0 = some (layer0 s) ∧
    mapFind (createOverlay (createOverlay (createOverlay st s 0).1 s 1).1
        s 2).1.layers 1 = some (layer1 s) ∧
    mapFind (createOverlay (createOverlay (createOverlay st s 0).1 s 1).1
        s 2).1.layers 2 = some (layer2 s) := by
  have e0 : (createOverlay st s 0).1 =
      { st with layers := mapInsert 0 (layer0 s) st.layers } := by
    simp [createOverlay, h0, defaultLayer, layer0]
  have f1 : mapFind (mapInsert 0 (layer0 s) st.layers) 1 = none := by
    rw [mapFind_mapInsert_ne 0 1 _ (by decide)]
    exact h1
  have e1 : (createOverlay (createOverlay st s 0).1 s 1).1 =
      { st with layers :=
          mapInsert 1 (layer1 s) (mapInsert 0 (layer0 s) st.layers) } := by
    rw [e0]
    simp [createOverlay, f1, defaultLayer, layer1]
  have f2 : mapFind (mapInsert 1 (layer1 s)
      (mapInsert 0 (layer0 s) st.layers)) 2 = none := by
    rw [mapFind_mapInsert_ne 1 2 _ (by decide),
        mapFind_mapInsert_ne 0 2 _ (by decide)]
    exact h2
  have e2 : (createOverlay (createOverlay (createOverlay st s 0).1 s 1).1
      s 2).1 =
      { st with layers := mapInsert 2 (layer2 s) (mapInsert 1 (layer1 s)
          (mapInsert 0 (layer0 s) st.layers)) } := by
    rw [e1]
    simp [createOverlay, f2, defaultLayer, layer2]
  rw [e2]
  refine ⟨?_, ?_, ?_⟩
  · rw [mapFind_mapInsert_ne 2 0 _ (by decide),
        mapFind_mapInsert_ne 1 0 _ (by decide), mapFind_mapInsert_self]
  · rw [mapFind_mapInsert_ne 2 1 _ (by decide), mapFind_mapInsert_self]
  · rw [mapFind_mapInsert_self]

/-- Fresh state right after a successful `initialize` and `createSession`:
no layers yet. -/
def freshState : CMRState :=
  { initialized := true, frameCount := 0, eglDisplay := 1, eglContext := 1,
    eglSurface := 1, shaderProgram := 1, quadVAO := 1, quadVBO := 1,
    sessions := [2271560481], layers := [],
    nextInstance := 305419897, nextSession := 2271560482 }

/-- C6 witness: the three default layers on a fresh session. -/
theorem c6_witness :
    mapFind freshState.layers 0 = none ∧
    (mapFind (createOverlay (createOverlay
        (createOverlay freshState 2271560481 0).1 2271560481 1).1
        2271560481 2).1.layers 0 = some (layer0 2271560481) ∧
     mapFind (createOverlay (createOverlay
        (createOverlay freshState 2271560481 0).1 2271560481 1).1
        2271560481 2).1.layers 1 = some (layer1 2271560481) ∧
     mapFind (createOverlay (createOverlay
        (createOverlay freshState 2271560481 0).1 2271560481 1).1
        2271560481 2).1.layers 2 = some (layer2 2271560481)) :=
  ⟨rfl, c6_default_layers freshState 2271560481 rfl rfl rfl⟩

/-! ### Claim C1 -/

/-- Cumulative effect of a mutator sequence on one layer's fields. -/
def runOps (id : Int) (ops : List Op) (l : OverlayLayer) : OverlayLayer :=
  ops.foldl (fun acc op => opOnLayer id op acc) l

theorem runOps_nil (id : Int) (l : OverlayLayer) : runOps id [] l = l := rfl

theorem runOps_cons (id : Int) (op : Op) (ops : List Op) (l : OverlayLayer) :
    runOps id (op :: ops) l = runOps id ops (opOnLayer id op l) := rfl

theorem applyOp_find (st : CMRState) (op : Op) (id : Int) :
    mapFind (applyOp st op).layers id =
      (mapFind st.layers id).map (opOnLayer id op) := by
  cases op with
  | pos i x y =>
    simp only [applyOp, updateOverlayPosition]
    cases hf : mapFind st.layers i with
    | none =>
      by_cases hid : i = id
      · subst hid
        simp [hf, opOnLayer]
      · cases hg : mapFind st.layers id <;> simp [hg, opOnLayer, hid]
    | some v =>
      by_cases hid : i = id
      · subst hid
        simp only []
        rw [mapFind_mapAdjust_self]
        cases hg : mapFind st.layers i <;> simp [opOnLayer]
      · simp only []
        rw [mapFind_mapAdjust_ne _ _ _ (fun h => hid h.symm)]
        cases hg : mapFind st.layers id <;> simp [hg, opOnLayer, hid]
  | scl i sc =>
    simp only [applyOp, updateOverlayScale]
    cases hf : mapFind st.layers i with
    | none =>
      by_cases hid : i = id
      · subst hid
        simp [hf, opOnLayer]
      · cases hg : mapFind st.layers id <;> simp [hg, opOnLayer, hid]
    | some v =>
      by_cases hid : i = id
      · subst hid
        simp only []
        rw [mapFind_mapAdjust_self]
        cases hg : mapFind st.layers i <;> simp [opOnLayer]
      · simp only []
        rw [mapFind_mapAdjust_ne _ _ _ (fun h => hid h.symm)]
        cases hg : mapFind st.layers id <;> simp [hg, opOnLayer, hid]
  | col i r g b =>
    simp only [applyOp, updateOverlayColor]
    cases hf : mapFind st.layers i with
    | none =>
      by_cases hid : i = id
      · subst hid
        simp [hf, opOnLayer]
      · cases hg : mapFind st.layers id <;> simp [hg, opOnLayer, hid]
    | some v =>
      by_cases hid : i = id
      · subst hid
        simp only []
        rw [mapFind_mapAdjust_self]
        cases hg : mapFind st.layers i <;> simp [opOnLayer]
      · simp only []
        rw [mapFind_mapAdjust_ne _ _ _ (fun h => hid h.symm)]
        cases hg : mapFind st.layers id <;> simp [hg, opOnLayer, hid]

theorem applyOps_find (ops : List Op) (id : Int) :
    ∀ st : CMRState, mapFind (applyOps st ops).layers id =
      (mapFind st.layers id).map (runOps id ops) := by
  induction ops with
  | nil =>
    intro st
    cases h : mapFind st.layers id <;> simp [applyOps, h, runOps]
  | cons op ops ih =>
    intro st
    have step : applyOps st (op :: ops) = applyOps (applyOp st op) ops := rfl
    rw [step, ih, applyOp_find]
    cases h : mapFind st.layers id <;> simp [runOps_cons]

theorem applyOp_sessions (st : CMRState) (op : Op) :
    (applyOp st op).sessions = st.sessions := by
  cases op <;>
    simp only [applyOp, updateOverlayPosition, updateOverlayScale,
      updateOverlayColor] <;>
    split <;> rfl

theorem applyOps_sessions (ops : List Op) :
    ∀ st : CMRState, (applyOps st ops).sessions = st.sessions := by
  induction ops with
  | nil => intro st; rfl
  | cons op ops ih =>
    intro st
    have step : applyOps st (op :: ops) = applyOps (applyOp st op) ops := rfl
    rw [step, ih, applyOp_sessions]

theorem runOps_fields (id : Int) (ops : List Op) :
    ∀ l : OverlayLayer,
      (runOps id ops l).x = (lastPos id ops (l.x, l.y)).1 ∧
      (runOps id ops l).y = (lastPos id ops (l.x, l.y)).2 ∧
      (runOps id ops l).scale = lastScale id ops l.scale := by
  induction ops with
  | nil => intro l; exact ⟨rfl, rfl, rfl⟩
  | cons op ops ih =>
    intro l
    rw [runOps_cons]
    cases op with
    | pos i x y =>
      by_cases hid : i = id <;>
        simp only [opOnLayer, lastPos, lastScale, List.foldl_cons,
          if_pos, if_neg, hid, ite_true, ite_false] <;>
        exact ih _
    | scl i sc =>
      by_cases hid : i = id <;>
        simp only [opOnLayer, lastPos, lastScale, List.foldl_cons,
          if_pos, if_neg, hid, ite_true, ite_false] <;>
        exact ih _
    | col i r g b =>
      by_cases hid : i = id <;>
        simp only [opOnLayer, lastPos, lastScale, List.foldl_cons,
          if_pos, if_neg, hid, ite_true, ite_false] <;>
        exact ih _

/-- C1: for a layer id with an existing layer (created exactly once), after
any sequence of `updateOverlayPosition` / `updateOverlayScale` /
`updateOverlayColor` calls, the model matrix uploaded for that layer by the
next frame's `renderOverlays` (inside `endFrame`) equals
`translate(x,y,0) · scale(s,s,1)` where `(x, y)` and `s` are the
last-written position and scale (or the pre-existing values when never
written). -/
theorem c1_model_matrix_last_written (st : CMRState) (id : Int)
    (l : OverlayLayer) (s : Nat) (ops : List Op) (swapOk : Bool)
    (hl : mapFind st.layers id = some l) (hs : s ∈ st.sessions) :
    ∃ l', mapFind (applyOps st ops).layers id = some l' ∧
      l'.x = (lastPos id ops (l.x, l.y)).1 ∧
      l'.y = (lastPos id ops (l.x, l.y)).2 ∧
      l'.scale = lastScale id ops l.scale ∧
      RenderEvent.draw id (layerModelMatrix l') (l'.r, l'.g, l'.b) ∈
        (endFrame (applyOps st ops) s swapOk).2.2 ∧
      matToSpec (layerModelMatrix l') =
        specTranslate l'.x l'.y 0 * specScale l'.scale l'.scale 1 := by
  refine ⟨runOps id ops l, ?_, ?_, ?_, ?_, ?_, ?_⟩
  · rw [applyOps_find, hl]
    rfl
  · exact (runOps_fields id ops l).1
  · exact (runOps_fields id ops l).2.1
  · exact (runOps_fields id ops l).2.2
  · have hfind : mapFind (applyOps st ops).layers id = some (runOps id ops l) := by
      rw [applyOps_find, hl]
      rfl
    have hmem : (id, runOps id ops l) ∈ (applyOps st ops).layers :=
      mem_of_mapFind_eq_some hfind
    have hs' : s ∈ (applyOps st ops).sessions := by
      rw [applyOps_sessions]
      exact hs
    have htrace : RenderEvent.draw id (layerModelMatrix (runOps id ops l))
        ((runOps id ops l).r, (runOps id ops l).g, (runOps id ops l).b) ∈
        renderOverlays (applyOps st ops) := by
      unfold renderOverlays
      refine List.mem_append_left _ (List.mem_append_right _ ?_)
      exact List.mem_map_of_mem _ hmem
    unfold endFrame
    rw [if_neg (by simp [hs'])]
    cases swapOk <;> simpa using htrace
  · exact matrix_multiply_translate_scale _ _ _

/-- C1 witness: on the sample state, move layer 0 twice, rescale it, and
recolor it; the draw on the next frame uses the last-written values. -/
theorem c1_witness :
    mapFind sampleState.layers 0 = some sampleLayer ∧
    2271560481 ∈ sampleState.sessions ∧
    (∃ l', mapFind (applyOps sampleState
        [Op.pos 0 9 9, Op.pos 0 1 2, Op.scl 0 3, Op.col 0 1 1 0]).layers 0 =
          some l' ∧
      l'.x = (lastPos 0 [Op.pos 0 9 9, Op.pos 0 1 2, Op.scl 0 3,
        Op.col 0 1 1 0] (sampleLayer.x, sampleLayer.y)).1 ∧
      l'.y = (lastPos 0 [Op.pos 0 9 9, Op.pos 0 1 2, Op.scl 0 3,
        Op.col 0 1 1 0] (sampleLayer.x, sampleLayer.y)).2 ∧
      l'.scale = lastScale 0 [Op.pos 0 9 9, Op.pos 0 1 2, Op.scl 0 3,
        Op.col 0 1 1 0] sampleLayer.scale ∧
      RenderEvent.draw 0 (layerModelMatrix l') (l'.r, l'.g, l'.b) ∈
        (endFrame (applyOps sampleState [Op.pos 0 9 9, Op.pos 0 1 2,
          Op.scl 0 3, Op.col 0 1 1 0]) 2271560481 true).2.2 ∧
      matToSpec (layerModelMatrix l') =
        specTranslate l'.x l'.y 0 * specScale l'.scale l'.scale 1) :=
  ⟨by simp [sampleState, mapFind], by simp [sampleState],
   c1_model_matrix_last_written sampleState 0 sampleLayer 2271560481
     [Op.pos 0 9 9, Op.pos 0 1 2, Op.scl 0 3, Op.col 0 1 1 0] true
     (by simp [sampleState, mapFind]) (by simp [sampleState])⟩

/-! ### Claim C10 -/

/-- C10: on an initialized runtime, `cleanup` clears all overlay layers and
issues the graphics release calls, but leaves the session registry and the
frame counter unchanged: `getFrameCount` reads the same value and
`beginFrame` on a session created before the cleanup still returns true. -/
theorem c10_cleanup_preserves_sessions (st : CMRState)
    (h : st.initialized = true) :
    (cleanup st).1.layers = [] ∧
    (cleanup st).1.frameCount = st.frameCount ∧
    (cleanup st).1.sessions = st.sessions ∧
    getFrameCount (cleanup st).1 = getFrameCount st ∧
    (st.shaderProgram ≠ 0 →
      GlEvent.deleteProgram st.shaderProgram ∈ (cleanup st).2) ∧
    (st.eglDisplay ≠ 0 → GlEvent.eglTerminate ∈ (cleanup st).2) ∧
    ∀ s ∈ st.sessions, (beginFrame (cleanup st).1 s).2 = true := by
  have hc : cleanup st =
      ({ st with layers := [], initialized := false },
       (if st.shaderProgram ≠ 0 then [GlEvent.deleteProgram st.shaderProgram]
        else []) ++
       (if st.quadVAO ≠ 0 then [GlEvent.deleteVAO st.quadVAO] else []) ++
       (if st.quadVBO ≠ 0 then [GlEvent.deleteVBO st.quadVBO] else []) ++
       (if st.eglDisplay ≠ 0 then
          [GlEvent.makeCurrentNull] ++
          (if st.eglContext ≠ 0 then [GlEvent.destroyContext st.eglContext]
           else []) ++
          (if st.eglSurface ≠ 0 then [GlEvent.destroySurface st.eglSurface]
           else []) ++
          [GlEvent.eglTerminate]
        else [])) := by
    simp [cleanup, h]
  refine ⟨by rw [hc], by rw [hc], by rw [hc], by rw [hc]; rfl, ?_, ?_, ?_⟩
  · intro hp
    rw [hc]
    simp [hp]
  · intro hd
    rw [hc]
    simp [hd]
  · intro s hs
    rw [hc]
    simp [beginFrame, hs]

/-- C10 witness: cleanup of the sample state (which holds one layer, one
session and a non-zero frame count). -/
theorem c10_witness :
    sampleState.initialized = true ∧
    ((cleanup sampleState).1.layers = [] ∧
     (cleanup sampleState).1.frameCount = sampleState.frameCount ∧
     (cleanup sampleState).1.sessions = sampleState.sessions ∧
     getFrameCount (cleanup sampleState).1 = getFrameCount sampleState ∧
     (sampleState.shaderProgram ≠ 0 →
       GlEvent.deleteProgram sampleState.shaderProgram ∈
         (cleanup sampleState).2) ∧
     (sampleState.eglDisplay ≠ 0 →
       GlEvent.eglTerminate ∈ (cleanup sampleState).2) ∧
     ∀ s ∈ sampleState.sessions,
       (beginFrame (cleanup sampleState).1 s).2 = true) :=
  ⟨rfl, c10_cleanup_preserves_sessions sampleState rfl⟩

/-! ### Claim C7 (corrected) -/

/-- C7 counterexample: `endFrame` can return `false` on a recognized
session — when the EGL buffer swap fails — so "begin/endFrame return false
exactly when the session handle is unrecognized, and true on a recognized
session" is false as stated. -/
theorem c7_counterexample :
    2271560481 ∈ sampleState.sessions ∧
    (endFrame sampleState 2271560481 false).2.1 = false := by
  refine ⟨by simp [sampleState], ?_⟩
  simp [endFrame, sampleState]

/-- C7 amended: `beginFrame` returns true exactly on a recognized session
and then increments the frame count by exactly one (returning `(st, false)`
otherwise); `endFrame` returns false on an unrecognized session, and on a
recognized session returns true exactly when the EGL buffer swap
succeeds. -/
theorem c7_amended_begin_end_returns (st : CMRState) (s : Nat)
    (swapOk : Bool) :
    ((beginFrame st s).2 = true ↔ s ∈ st.sessions) ∧
    (s ∈ st.sessions →
      (beginFrame st s).1.frameCount = st.frameCount + 1) ∧
    (s ∉ st.sessions → beginFrame st s = (st, false)) ∧
    (s ∉ st.sessions → (endFrame st s swapOk).2.1 = false) ∧
    (s ∈ st.sessions → (endFrame st s swapOk).2.1 = swapOk) := by
  by_cases hmem : s ∈ st.sessions
  · refine ⟨by simp [beginFrame, hmem], ?_, ?_, ?_, ?_⟩
    · intro _
      simp [beginFrame, hmem]
    · intro hn
      exact absurd hmem hn
    · intro hn
      exact absurd hmem hn
    · intro _
      cases swapOk <;> simp [endFrame, hmem]
  · refine ⟨by simp [beginFrame, hmem], ?_, ?_, ?_, ?_⟩
    · intro hmm
      exact absurd hmm hmem
    · intro _
      simp [beginFrame, hmem]
    · intro _
      simp [endFrame, hmem]
    · intro hmm
      exact absurd hmm hmem

/-- C7 witness: the amended contract at the sample state with a successful
swap. -/
theorem c7_witness :
    ((beginFrame sampleState 2271560481).2 = true ↔
      2271560481 ∈ sampleState.sessions) ∧
    (2271560481 ∈ sampleState.sessions →
      (beginFrame sampleState 2271560481).1.frameCount =
        sampleState.frameCount + 1) ∧
    (2271560481 ∉ sampleState.sessions →
      beginFrame sampleState 2271560481 = (sampleState, false)) ∧
    (2271560481 ∉ sampleState.sessions →
      (endFrame sampleState 2271560481 true).2.1 = false) ∧
    (2271560481 ∈ sampleState.sessions →
      (endFrame sampleState 2271560481 true).2.1 = true) :=
  c7_amended_begin_end_returns sampleState 2271560481 true

/-! ### Claim C8 (corrected) -/

/-- C8 counterexample: with the runtime not initialized, `createSession`
with a valid (non-null) window still returns a non-null handle — the
source's `createSession` never checks `m_initialized` — so "calling either
before initialization succeeds returns a null handle" is false as
stated. -/
theorem c8_counterexample :
    initialState.initialized = false ∧
    (createSession initialState true).2 ≠ 0 := by
  refine ⟨rfl, ?_⟩
  simp [createSession, initialState]

/-- C8 amended: `createInstance` requires the rendering context to be
initialized and returns the null handle otherwise; `createSession` returns
the null handle exactly when the window is null, independent of
initialization. -/
theorem c8_amended_null_handles (st : CMRState) (h : st.nextSession ≠ 0) :
    (st.initialized = false → (createInstance st).2 = 0) ∧
    (∀ w : Bool, ((createSession st w).2 = 0 ↔ w = false)) := by
  constructor
  · intro hi
    simp [createInstance, hi]
  · intro w
    cases w <;> simp [createSession, h]

/-- C8 witness: the amended contract at the fresh process state (not
initialized, session counter `0x87654321`). -/
theorem c8_witness :
    initialState.nextSession ≠ 0 ∧
    ((initialState.initialized = false →
      (createInstance initialState).2 = 0) ∧
     (∀ w : Bool, ((createSession initialState w).2 = 0 ↔ w = false))) :=
  ⟨by decide, c8_amended_null_handles initialState (by decide)⟩

/-! ### Claim C3 -/

theorem eyeDraws_countP_begin (n : Nat) :
    (eyeDraws n).countP isBeginCall = 0 := by
  induction n with
  | zero => rfl
  | succ n ih =>
    simp only [eyeDraws, List.range_succ, List.flatMap_append] at ih ⊢
    simp [List.countP_append, ih, List.countP_cons, isBeginCall]

theorem eyeDraws_countP_end (n : Nat) :
    (eyeDraws n).countP isEndCall = 0 := by
  induction n with
  | zero => rfl
  | succ n ih =>
    simp only [eyeDraws, List.range_succ, List.flatMap_append] at ih ⊢
    simp [List.countP_append, ih, List.countP_cons, isEndCall]

theorem renderFrame_counts (r s : Bool) (dt vc : Nat) :
    (renderFrame r s dt vc).countP isBeginCall = (if r then 1 else 0) ∧
    (renderFrame r s dt vc).countP isEndCall = (if r then 1 else 0) := by
  cases r <;> cases s <;>
    simp [renderFrame, List.countP_append, List.countP_cons,
      isBeginCall, isEndCall, eyeDraws_countP_begin, eyeDraws_countP_end]

/-- C3: over any sequence of `renderFrame` ticks the number of
`xrBeginFrame` calls equals the number of `xrEndFrame` calls (each
invocation that begins a frame ends it exactly once), and when
`shouldRender` is false a running tick's whole trace is
wait/begin/end-with-zero-layers — the frame is still ended, with an empty
composition-layer list and no rendering calls. -/
theorem c3_begin_end_paired (ticks : List TickEnv) :
    (ticksTrace ticks).countP isBeginCall =
      (ticksTrace ticks).countP isEndCall ∧
    (∀ (r s : Bool) (dt vc : Nat),
      (renderFrame r s dt vc).countP isBeginCall = (if r then 1 else 0) ∧
      (renderFrame r s dt vc).countP isEndCall = (if r then 1 else 0)) ∧
    (∀ dt vc : Nat, renderFrame true false dt vc =
      [XrCall.waitFrame, XrCall.beginFrame, XrCall.endFrame 0 dt]) := by
  refine ⟨?_, fun r s dt vc => renderFrame_counts r s dt vc,
    fun dt vc => by simp [renderFrame]⟩
  induction ticks with
  | nil => rfl
  | cons t ts ih =>
    have step : ticksTrace (t :: ts) =
        renderFrame t.sessionRunning t.shouldRender t.displayTime
          t.viewCountOutput ++ ticksTrace ts := by
      simp [ticksTrace]
    rw [step, List.countP_append, List.countP_append,
      (renderFrame_counts t.sessionRunning t.shouldRender t.displayTime
        t.viewCountOutput).1,
      (renderFrame_counts t.sessionRunning t.shouldRender t.displayTime
        t.viewCountOutput).2, ih]

/-! ### Claim C4 (corrected) -/

/-- Environment where every runtime call of the demo init path succeeds. -/
def demoEnvOk : DemoEnv :=
  { eglDisplayHandle := 5, eglContextHandle := 6, eglSurfaceHandle := 7,
    createInstanceOk := true, getSystemOk := true, createSessionOk := true,
    createSpaceOk := true, createSwapchainOk := true, viewCountIn := 2,
    imageCountIn := 3 }

/-- C4 counterexample: calling swapchain creation (`initOpenXR`) twice in
sequence is NOT idempotent — the second call generates an additional
framebuffer (count 2 vs 1) and yields a different swapchain handle, and
`initOpenXR` itself carries no `created` guard flag. -/
theorem c4_counterexample :
    (initOpenXR demoEnvOk
        (initOpenXR demoEnvOk demoStart).1).1.framebuffersAllocated ≠
      (initOpenXR demoEnvOk demoStart).1.framebuffersAllocated ∧
    (initOpenXR demoEnvOk (initOpenXR demoEnvOk demoStart).1).1.swapchainH ≠
      (initOpenXR demoEnvOk demoStart).1.swapchainH ∧
    (initOpenXR demoEnvOk demoStart).1.framebuffersAllocated = 1 ∧
    (initOpenXR demoEnvOk
        (initOpenXR demoEnvOk demoStart).1).1.framebuffersAllocated = 2 := by
  refine ⟨?_, ?_, ?_, ?_⟩ <;> decide

theorem initOpenXR_eglDisplay (env : DemoEnv) (st : DemoState) :
    (initOpenXR env st).1.eglDisplay = st.eglDisplay := by
  obtain ⟨d, c, sf, ci, gs, cs, csp, csw, vc, ic⟩ := env
  cases ci <;> cases gs <;> cases cs <;> cases csp <;> cases csw <;> rfl

theorem initOpenGL_eglDisplay (st : DemoState) :
    (initOpenGL st).1.eglDisplay = st.eglDisplay := rfl

theorem initEGL_eglDisplay (env : DemoEnv) (st : DemoState) :
    (initEGL env st).1.eglDisplay = env.eglDisplayHandle := rfl

/-- C4 amended: the init sequence is guarded in `handleAppCmd`, not by a
`created` flag but by the `eglDisplay == EGL_NO_DISPLAY` check; given a
non-null display handle from EGL, a second `APP_CMD_INIT_WINDOW` command
is a no-op, so the state — in particular the framebuffer count and the
swapchain handle — after the second command equals the state after the
first, and the swapchain-creation path runs at most once. -/
theorem c4_amended_init_guard (env : DemoEnv) (w : Bool) (st : DemoState)
    (h : env.eglDisplayHandle ≠ 0) :
    handleAppCmd env w AppCmd.initWindow
        (handleAppCmd env w AppCmd.initWindow st) =
      handleAppCmd env w AppCmd.initWindow st ∧
    (handleAppCmd env w AppCmd.initWindow
        (handleAppCmd env w AppCmd.initWindow st)).framebuffersAllocated =
      (handleAppCmd env w AppCmd.initWindow st).framebuffersAllocated ∧
    (handleAppCmd env w AppCmd.initWindow
        (handleAppCmd env w AppCmd.initWindow st)).swapchainH =
      (handleAppCmd env w AppCmd.initWindow st).swapchainH := by
  have hskip : ∀ st' : DemoState, st'.eglDisplay ≠ 0 →
      handleAppCmd env true AppCmd.initWindow st' = st' := by
    intro st' hne
    simp [handleAppCmd, hne]
  have hmain : handleAppCmd env w AppCmd.initWindow
      (handleAppCmd env w AppCmd.initWindow st) =
      handleAppCmd env w AppCmd.initWindow st := by
    cases w with
    | false => rfl
    | true =>
      by_cases hd : st.eglDisplay = 0
      · have hfirst : handleAppCmd env true AppCmd.initWindow st =
            (initOpenXR env (initOpenGL (initEGL env st).1).1).1 := by
          simp [handleAppCmd, hd]
        have hafter : (handleAppCmd env true AppCmd.initWindow
            st).eglDisplay = env.eglDisplayHandle := by
          rw [hfirst, initOpenXR_eglDisplay, initOpenGL_eglDisplay,
            initEGL_eglDisplay]
        exact hskip _ (by rw [hafter]; exact h)
      · rw [hskip st hd, hskip st hd]
  exact ⟨hmain, by rw [hmain], by rw [hmain]⟩

/-- C4 witness: two `APP_CMD_INIT_WINDOW` commands from process start with
a live window and an all-success environment. -/
theorem c4_witness :
    demoEnvOk.eglDisplayHandle ≠ 0 ∧
    (handleAppCmd demoEnvOk true AppCmd.initWindow
        (handleAppCmd demoEnvOk true AppCmd.initWindow demoStart) =
      handleAppCmd demoEnvOk true AppCmd.initWindow demoStart ∧
    (handleAppCmd demoEnvOk true AppCmd.initWindow
        (handleAppCmd demoEnvOk true AppCmd.initWindow
          demoStart)).framebuffersAllocated =
      (handleAppCmd demoEnvOk true AppCmd.initWindow
        demoStart).framebuffersAllocated ∧
    (handleAppCmd demoEnvOk true AppCmd.initWindow
        (handleAppCmd demoEnvOk true AppCmd.initWindow
          demoStart)).swapchainH =
      (handleAppCmd demoEnvOk true AppCmd.initWindow demoStart).swapchainH) :=
  ⟨by decide, c4_amended_init_guard demoEnvOk true demoStart (by decide)⟩

end MonadoRuntime
